import Mathlib

set_option maxRecDepth 8192

/-!
Verification of the voice-clone generation orchestrator of the vox-mimic
repository: a shallow embedding of the `clone-voice` edge function (its
final revision in `supabase/functions/clone-voice/index.ts`), the
`cleanup-voices` sweeper, the `retryWithBackoff` helper, the
`handleElevenLabsError` classifier, the HTTP status-code mapping of the
catch handler, and the database validation trigger
`validate_voice_parameters` from the migrations.

External effects (HTTP calls to the provider, storage fetches, database
writes) are modelled by an explicit environment `Env` fixing the outcome
of each external operation, so a run is a pure function of its inputs.
Database updates are modelled as succeeding; provider/storage failures are
modelled through `Env`.
-/

/-- JavaScript `msg.includes(sub)`: substring containment, embedded as
list-infix on the character lists of the two strings. -/
def jsIncludes (msg sub : String) : Bool :=
  decide (sub.data <:+: msg.data)

/-- The status-code mapping of the catch handler of the `clone-voice`
function (identical in both revisions): derives an HTTP-style status code
from the error message by substring sniffing. -/
def determineStatusCode (msg : String) : Nat :=
  if jsIncludes msg "quota" || jsIncludes msg "limit" then 402
  else if jsIncludes msg "invalid" || jsIncludes msg "format" then 422
  else if jsIncludes msg "rate limit" then 429
  else if jsIncludes msg "API key" then 401
  else 500

/-- `handleElevenLabsError`: maps the provider HTTP status code and raw
error message to the user-facing message that is thrown. The embedding
returns the thrown message. -/
def handleElevenLabsError (statusCode : Nat) (errorMessage : String) (operation : String) : String :=
  if statusCode = 401 then
    "ElevenLabs API key is invalid or expired. Please update your API key."
  else if statusCode = 402 then
    "ElevenLabs quota exceeded. Please check your subscription or wait until your quota resets."
  else if statusCode = 422 then
    if jsIncludes errorMessage.toLower "audio" then
      "Invalid audio format or corrupted audio files. Please re-record your voice samples."
    else
      "Invalid request data. Please check your voice settings and try again."
  else if statusCode = 429 then
    "Rate limit exceeded. Please wait a moment and try again."
  else if statusCode = 500 || statusCode = 502 || statusCode = 503 then
    "ElevenLabs service is temporarily unavailable. Please try again in a few minutes."
  else if jsIncludes errorMessage.toLower "voice limit" || jsIncludes errorMessage.toLower "maximum" then
    "Voice limit reached on your ElevenLabs account. Please delete unused voices or upgrade your plan."
  else if jsIncludes errorMessage.toLower "format" then
    "Audio format not supported. Please ensure recordings are in MP3 format."
  else
    "ElevenLabs " ++ operation ++ " failed: " ++ errorMessage

/-- The loop body of `retryWithBackoff`. `op` gives the outcome of the
`attempt`-th invocation of the wrapped operation, `remaining` is the
number of attempts still allowed, `lastErr` the error of the previous
attempt (as in the source, `null` before the first attempt). Returns the
final outcome (`Except.error lastErr` when no attempt was allowed), the
number of invocations performed, and the list of backoff delays waited. -/
def retryLoop {E A : Type} (op : Nat → Except E A) (initialDelay : Nat) :
    Nat → Nat → Option E → Except (Option E) A × Nat × List Nat
  | _, 0, lastErr => (Except.error lastErr, 0, [])
  | attempt, remaining + 1, _ =>
    match op attempt with
    | Except.ok a => (Except.ok a, 1, [])
    | Except.error e =>
      match remaining with
      | 0 => (Except.error (some e), 1, [])
      | r + 1 =>
        let res := retryLoop op initialDelay (attempt + 1) (r + 1) (some e)
        (res.1, res.2.1 + 1, initialDelay * 2 ^ attempt :: res.2.2)

/-- `retryWithBackoff(fn, maxRetries, initialDelay)`: runs the operation
up to `maxRetries` times, with delay `initialDelay * 2 ^ attempt` after
each non-final failed attempt; rethrows the last error, or the fallback
message when no attempt ran at all (`maxRetries = 0`). Returns the final
result together with the number of invocations and the delays waited. -/
def retryWithBackoff {A : Type} (op : Nat → Except String A) (maxRetries initialDelay : Nat) :
    Except String A × Nat × List Nat :=
  match retryLoop op initialDelay 0 maxRetries none with
  | (Except.ok a, n, ds) => (Except.ok a, n, ds)
  | (Except.error (some e), n, ds) => (Except.error e, n, ds)
  | (Except.error none, n, ds) => (Except.error "All retry attempts failed", n, ds)

/-- JavaScript `s.trim()`, modelled explicitly over the character list
(whitespace stripped from both ends). -/
def jsTrim (s : String) : List Char :=
  ((s.data.dropWhile Char.isWhitespace).reverse.dropWhile Char.isWhitespace).reverse

/-- The script check of step 2 of the source:
`!project.script_text || project.script_text.trim().length === 0`
(JS falsiness of `null`/`undefined`/empty string, then emptiness after
trimming). -/
def jsScriptMissing (script : Option String) : Bool :=
  match script with
  | none => true
  | some s => s == "" || (jsTrim s).length == 0

/-- A row of the `voice_projects` table, with the columns the orchestrator
reads and writes. Numeric voice parameters are embedded as rationals. -/
structure Project where
  id : String
  user_id : String
  name : String
  script_text : Option String
  voice_stability : Option ℚ
  voice_similarity_boost : Option ℚ
  voice_style : Option ℚ
  voice_speaker_boost : Option Bool
  status : String
  elevenlabs_voice_id : Option String
  generated_audio_url : Option String
  last_generation_at : Option Nat
deriving DecidableEq

/-- A row of the `voice_samples` table (the fields the orchestrator uses). -/
structure Sample where
  clip_number : Nat
  sample_url : String
deriving DecidableEq

/-- The `voice_settings` JSON object sent to the text-to-speech call. -/
structure VoiceSettings where
  stability : ℚ
  similarity_boost : ℚ
  style : ℚ
  use_speaker_boost : Bool
deriving DecidableEq

/-- The voice settings the run sends to `synthesize`, from the project
row: `project.voice_stability ?? 0.5` and so on — nullish coalescing, so
a stored value (including an explicit 0 or false) is passed through and
the default is used only for a null column. -/
def settingsSent (p : Project) : VoiceSettings :=
  { stability := p.voice_stability.getD (mkRat 1 2),
    similarity_boost := p.voice_similarity_boost.getD (mkRat 3 4),
    style := p.voice_style.getD 0,
    use_speaker_boost := p.voice_speaker_boost.getD true }

/-- One remote call to the voice provider performed during a run. -/
inductive ProviderCall where
  | createVoice : ProviderCall
  | synthesize : String → VoiceSettings → ProviderCall
  | deleteVoice : String → ProviderCall
deriving DecidableEq

/-- Outcomes of the external operations of one run: whether each sample
download survives (fetch ok and non-empty blob), the outcome of each
attempt of the two retried provider calls (`createVoice` returns the
optional `voice_id` field of the JSON response), and the storage upload
outcome (`some msg` is a failed upload with message `msg`). -/
structure Env where
  sampleOk : Nat → Bool
  createVoiceAttempts : Nat → Except String (Option String)
  synthesizeAttempts : Nat → Except String Nat
  uploadError : Option String

/-- The observable outcome of one run: the final project row (`none` when
no row exists), the HTTP-style response (error message and status code,
or the public audio URL), the provider calls performed, the voice id
persisted by this run (if any), and the sample indices downloaded. -/
structure RunResult where
  project : Option Project
  response : Except (String × Nat) String
  calls : List ProviderCall
  recordedVoiceId : Option String
  sampleFetches : List Nat

/-- The public URL of the generated artifact, from
`{user_id}/{projectId}_generated.mp3` in the `voice-samples` bucket. -/
def publicUrlFor (uid pid : String) : String :=
  uid ++ "/" ++ pid ++ "_generated.mp3"

/-- The catch handler of the source: maps the thrown message to the final
state and response. With a recorded voice id, a best-effort provider
delete is attempted and the row is updated to `failed` with the voice id
cleared; with only a project id, the row is updated to `failed`; with no
project id, nothing is updated. -/
def failResult (req : Option String) (dbProject : Option Project) (voiceId : Option String)
    (calls : List ProviderCall) (fetched : List Nat) (msg : String) : RunResult :=
  match req, voiceId with
  | some pid, some vid =>
      { project := dbProject.map fun q =>
          if q.id == pid then { q with elevenlabs_voice_id := none, status := "failed" } else q,
        response := Except.error (msg, determineStatusCode msg),
        calls := calls ++ [ProviderCall.deleteVoice vid],
        recordedVoiceId := some vid,
        sampleFetches := fetched }
  | some pid, none =>
      { project := dbProject.map fun q =>
          if q.id == pid then { q with status := "failed" } else q,
        response := Except.error (msg, determineStatusCode msg),
        calls := calls,
        recordedVoiceId := none,
        sampleFetches := fetched }
  | none, _ =>
      { project := dbProject,
        response := Except.error (msg, determineStatusCode msg),
        calls := calls,
        recordedVoiceId := voiceId,
        sampleFetches := fetched }

/-- Message thrown when no sample survives download. -/
def noValidSamplesMsg : String :=
  "No valid voice samples could be loaded. Please check your recordings and try again."

/-- Message thrown by the step-2 script check. -/
def noScriptMsg : String :=
  "No script text provided. Please add text to generate speech."

/-- The run from the point where the remote voice has been created and
its id persisted (status `generating`): script check, retried synthesize
call, empty-audio check, storage upload, finalize (set URL, `completed`,
clear voice id), then best-effort voice deletion. -/
def afterVoiceCreated (pid : String) (p : Project) (fetched : List Nat)
    (calls : List ProviderCall) (vid : String) (env : Env) : RunResult :=
  let p2 : Project := { p with elevenlabs_voice_id := some vid, status := "generating" }
  if jsScriptMissing p.script_text then
    failResult (some pid) (some p2) (some vid) calls fetched noScriptMsg
  else
    let r := retryWithBackoff env.synthesizeAttempts 3 2000
    let calls2 := calls ++ List.replicate r.2.1 (ProviderCall.synthesize vid (settingsSent p))
    match r.1 with
    | Except.error e => failResult (some pid) (some p2) (some vid) calls2 fetched e
    | Except.ok size =>
      if size = 0 then
        failResult (some pid) (some p2) (some vid) calls2 fetched
          "Generated audio is empty. Please try again or adjust voice settings."
      else
        match env.uploadError with
        | some m =>
          failResult (some pid) (some p2) (some vid) calls2 fetched
            ("Failed to upload audio to storage: " ++ m)
        | none =>
          let url := publicUrlFor p.user_id pid
          let p3 : Project :=
            { p2 with generated_audio_url := some url, status := "completed",
                      elevenlabs_voice_id := none }
          { project := some p3,
            response := Except.ok url,
            calls := calls2 ++ [ProviderCall.deleteVoice vid],
            recordedVoiceId := some vid,
            sampleFetches := fetched }

/-- The run from the point where the project and a non-empty sample set
have been loaded: status `analyzing`, sample download loop over the first
`min(length, 25)` samples (failures skipped), zero-survivor check, then
the retried `createVoice` call and its `voice_id` null check. -/
def afterSamplesLoaded (pid : String) (p : Project) (samples : List Sample) (env : Env) : RunResult :=
  let p1 : Project := { p with status := "analyzing" }
  let k := min samples.length 25
  let fetched := List.range k
  let successfulSamples := (List.range k).countP (fun i => env.sampleOk i)
  if successfulSamples = 0 then
    failResult (some pid) (some p1) none [] fetched noValidSamplesMsg
  else
    let r := retryWithBackoff env.createVoiceAttempts 3 2000
    let calls := List.replicate r.2.1 ProviderCall.createVoice
    match r.1 with
    | Except.error e => failResult (some pid) (some p1) none calls fetched e
    | Except.ok none =>
      failResult (some pid) (some p1) none calls fetched
        "No voice ID returned from ElevenLabs. Please try again."
    | Except.ok (some vid) => afterVoiceCreated pid p1 fetched calls vid env

/-- The whole `serve` handler of the final revision of `clone-voice`:
project-id check, project fetch, sample fetch (ordered by clip number),
then the pipeline; every thrown message lands in `failResult`. The
database is modelled as holding at most the one relevant project row. -/
def runGeneration (req : Option String) (dbProject : Option Project)
    (samples : List Sample) (env : Env) : RunResult :=
  match req with
  | none => failResult none dbProject none [] [] "Project ID is required"
  | some pid =>
    match dbProject with
    | none => failResult (some pid) none none [] [] "Project not found"
    | some p =>
      if p.id == pid then
        if samples.isEmpty then
          failResult (some pid) (some p) none [] [] "No voice samples found for this project"
        else afterSamplesLoaded pid p samples env
      else failResult (some pid) (some p) none [] [] "Project not found"

/-- Five minutes in milliseconds, the generation cooldown of the spec. -/
def fiveMinutesMs : Nat := 5 * 60 * 1000

/-- Modelled from the spec: the rate-limit (cooldown) check of the
orchestrator is missing from the sources of this repository — only the
`last_generation_at` column it reads is declared, by the migration
comment "P1 #8: Add rate limiting - track last generation time". Per the
spec, the check fails when `last_generation_at` is set and
`now - last_generation_at < 5 minutes`, reporting the remaining seconds
(embedded as the truncating division of the remaining milliseconds). -/
def rateLimitRemainingSecs (now : Nat) (last : Option Nat) : Option Nat :=
  match last with
  | none => none
  | some t => if now - t < fiveMinutesMs then some ((fiveMinutesMs - (now - t)) / 1000) else none

/-- The RateLimited failure message of the spec-modelled cooldown path. -/
def rateLimitedMsg (secs : Nat) : String :=
  "RateLimited: cooldown active, " ++ toString secs ++ " seconds remaining"

/-- Modelled from the spec: the orchestrator revision with the rate-limit
check, absent from the sources. After loading the project it runs the
cooldown check; on the rate-limited path it fails with RateLimited
(status 429) performing no provider call and no state mutation, otherwise
it stamps `last_generation_at := now` and continues as `runGeneration`. -/
def runGenerationRL (now : Nat) (req : Option String) (dbProject : Option Project)
    (samples : List Sample) (env : Env) : RunResult :=
  match req, dbProject with
  | some pid, some p =>
    if p.id == pid then
      match rateLimitRemainingSecs now p.last_generation_at with
      | some secs =>
        { project := some p,
          response := Except.error (rateLimitedMsg secs, 429),
          calls := [],
          recordedVoiceId := none,
          sampleFetches := [] }
      | none =>
        runGeneration (some pid) (some { p with last_generation_at := some now }) samples env
    else runGeneration req dbProject samples env
  | _, _ => runGeneration req dbProject samples env

/-- The database trigger `validate_voice_parameters` of the migrations:
raises (returns an error) when a non-null voice parameter lies outside
[0, 1], otherwise accepts the row. -/
def validate_voice_parameters (p : Project) : Except String Unit :=
  if (match p.voice_stability with
      | some v => decide (v < 0) || decide (1 < v)
      | none => false) then
    Except.error "voice_stability must be between 0 and 1"
  else if (match p.voice_similarity_boost with
      | some v => decide (v < 0) || decide (1 < v)
      | none => false) then
    Except.error "voice_similarity_boost must be between 0 and 1"
  else if (match p.voice_style with
      | some v => decide (v < 0) || decide (1 < v)
      | none => false) then
    Except.error "voice_style must be between 0 and 1"
  else Except.ok ()

/-- A row of `voice_projects` as the cleanup sweeper sees it. -/
structure SweepProject where
  id : String
  elevenlabs_voice_id : Option String
  status : String
  updated_at : Nat
deriving DecidableEq

/-- A voice held by the provider, as `GET /voices` reports it. -/
structure ProviderVoice where
  voice_id : String
  name : String
deriving DecidableEq

/-- The joint database-and-provider state the sweeper reconciles. -/
structure SweepState where
  projects : List SweepProject
  voices : List ProviderVoice
deriving DecidableEq

/-- One hour in milliseconds, the stuck-project threshold of the sweeper. -/
def oneHourMs : Nat := 60 * 60 * 1000

/-- The candidate filter of cleanup pass (a): a non-null voice id and
status `failed` or `completed`, or `updated_at` older than one hour. -/
def passACandidate (now : Nat) (p : SweepProject) : Bool :=
  p.elevenlabs_voice_id.isSome &&
    (p.status == "failed" || p.status == "completed" || decide (p.updated_at < now - oneHourMs))

/-- The database update of pass (a): set `elevenlabs_voice_id` to null on
the rows matching the project id. -/
def clearVoiceId (pid : String) (ps : List SweepProject) : List SweepProject :=
  ps.map fun p => if p.id == pid then { p with elevenlabs_voice_id := none } else p

/-- One iteration of the pass (a) loop over a queried candidate `c`: the
provider delete succeeds or returns 404 (both treated as success in the
deterministic model, where per-item network failures do not occur), so
the voice is removed from the provider and the stored id cleared, and the
cleaned counter incremented. -/
def passAStep (acc : SweepState × Nat) (c : SweepProject) : SweepState × Nat :=
  match c.elevenlabs_voice_id with
  | none => acc
  | some vid =>
    ({ projects := clearVoiceId c.id acc.1.projects,
       voices := acc.1.voices.filter fun v => !(v.voice_id == vid) }, acc.2 + 1)

/-- Cleanup pass (a): query the candidate projects once, then loop. -/
def passA (now : Nat) (s : SweepState) : SweepState × Nat :=
  (s.projects.filter (passACandidate now)).foldl passAStep (s, 0)

/-- The voice ids referenced by any project row (the `knownVoiceIds` set
of pass (b)). -/
def knownVoiceIds (s : SweepState) : List String :=
  s.projects.filterMap (fun p => p.elevenlabs_voice_id)

/-- The orphan test of pass (b): the name carries the `Voice_` naming
convention and the id is not referenced by any project. -/
def isVoiceOrphan (known : List String) (v : ProviderVoice) : Bool :=
  "Voice_".isPrefixOf v.name && !(known.contains v.voice_id)

/-- One iteration of the pass (b) loop over a listed voice `v`: an orphan
is deleted from the provider; the counter increments only when the delete
returns ok (the id was still present; a repeated id yields 404). -/
def passBStep (known : List String) (acc : SweepState × Nat) (v : ProviderVoice) : SweepState × Nat :=
  if isVoiceOrphan known v then
    ({ acc.1 with voices := acc.1.voices.filter fun w => !(w.voice_id == v.voice_id) },
      if acc.1.voices.any fun w => w.voice_id == v.voice_id then acc.2 + 1 else acc.2)
  else acc

/-- Cleanup pass (b): list the provider voices once, query the referenced
ids once, then loop. -/
def passB (s : SweepState) : SweepState × Nat :=
  s.voices.foldl (passBStep (knownVoiceIds s)) (s, 0)

/-- One sweep of the `cleanup-voices` function: pass (a) then pass (b),
reporting the items cleaned by each pass. -/
def sweep (now : Nat) (s : SweepState) : SweepState × Nat × Nat :=
  ((passB (passA now s).1).1, (passA now s).2, (passB (passA now s).1).2)

/-- A valid project used as concrete input: explicit stability 0 (to
exercise the no-default-substitution round trip), other parameters null. -/
def demoProject : Project :=
  { id := "p1", user_id := "u1", name := "demo", script_text := some "Hello world",
    voice_stability := some 0, voice_similarity_boost := none, voice_style := none,
    voice_speaker_boost := none, status := "ready", elevenlabs_voice_id := none,
    generated_audio_url := none, last_generation_at := none }

/-- A project with no script text (concrete input for the script check). -/
def noScriptProject : Project :=
  { demoProject with id := "p3", script_text := none }

/-- A project whose stored stability 3/2 lies outside [0, 1] (concrete
input for the parameter-range claims). -/
def outOfRangeProject : Project :=
  { demoProject with id := "p4", voice_stability := some (mkRat 3 2) }

/-- A single-sample list used as concrete input. -/
def oneSample : List Sample := [{ clip_number := 1, sample_url := "s1" }]

/-- An environment in which every external operation succeeds. -/
def allOkEnv : Env :=
  { sampleOk := fun _ => true,
    createVoiceAttempts := fun _ => Except.ok (some "v1"),
    synthesizeAttempts := fun _ => Except.ok 10,
    uploadError := none }


/-- A project with a recent generation stamp (concrete input for the
cooldown claim). -/
def cooldownProject : Project :=
  { demoProject with id := "p2", last_generation_at := some 900 }

/-- The terminal-state invariant of one run, for a project id: a success
response means the row is `completed` with an audio URL and no stored
voice id; an error response means the row is `failed`, with the voice id
cleared whenever this run recorded one; and every voice id recorded by
the run received at least one deletion attempt. -/
def TerminalInv (r : RunResult) : Prop :=
  (∀ url, r.response = Except.ok url →
    ∃ q, r.project = some q ∧ q.status = "completed" ∧
      q.generated_audio_url ≠ none ∧ q.elevenlabs_voice_id = none) ∧
  (∀ err, r.response = Except.error err →
    ∃ q, r.project = some q ∧ q.status = "failed" ∧
      (r.recordedVoiceId ≠ none → q.elevenlabs_voice_id = none)) ∧
  (∀ vid, r.recordedVoiceId = some vid → ProviderCall.deleteVoice vid ∈ r.calls)

theorem retryLoop_succ_ok {E A : Type} (op : Nat → Except E A) (d attempt n : Nat)
    (lastErr : Option E) (a : A) (hop : op attempt = Except.ok a) :
    retryLoop op d attempt (n + 1) lastErr = (Except.ok a, 1, []) := by
  unfold retryLoop
  rw [hop]

theorem retryLoop_one_err {E A : Type} (op : Nat → Except E A) (d attempt : Nat)
    (lastErr : Option E) (e : E) (hop : op attempt = Except.error e) :
    retryLoop op d attempt 1 lastErr = (Except.error (some e), 1, []) := by
  unfold retryLoop
  rw [hop]

theorem retryLoop_succ2_err {E A : Type} (op : Nat → Except E A) (d attempt m : Nat)
    (lastErr : Option E) (e : E) (hop : op attempt = Except.error e) :
    retryLoop op d attempt (m + 2) lastErr =
      ((retryLoop op d (attempt + 1) (m + 1) (some e)).1,
       (retryLoop op d (attempt + 1) (m + 1) (some e)).2.1 + 1,
       d * 2 ^ attempt :: (retryLoop op d (attempt + 1) (m + 1) (some e)).2.2) := by
  conv_lhs => unfold retryLoop
  rw [hop]

theorem retryLoop_spec {E A : Type} (op : Nat → Except E A) (d : Nat) :
    ∀ (n attempt : Nat) (lastErr : Option E),
    (1 ≤ (retryLoop op d attempt (n + 1) lastErr).2.1 ∧
      (retryLoop op d attempt (n + 1) lastErr).2.1 ≤ n + 1) ∧
    (retryLoop op d attempt (n + 1) lastErr).2.2 =
      (List.range ((retryLoop op d attempt (n + 1) lastErr).2.1 - 1)).map
        (fun j => d * 2 ^ (attempt + j)) ∧
    (∀ a, (retryLoop op d attempt (n + 1) lastErr).1 = Except.ok a →
      op (attempt + ((retryLoop op d attempt (n + 1) lastErr).2.1 - 1)) = Except.ok a ∧
      ∀ j < (retryLoop op d attempt (n + 1) lastErr).2.1 - 1, ∃ e, op (attempt + j) = Except.error e) ∧
    (∀ oe, (retryLoop op d attempt (n + 1) lastErr).1 = Except.error oe →
      (retryLoop op d attempt (n + 1) lastErr).2.1 = n + 1 ∧
      (∃ e, oe = some e ∧ op (attempt + n) = Except.error e) ∧
      ∀ j < n + 1, ∃ e, op (attempt + j) = Except.error e) := by
  intro n
  induction n with
  | zero =>
    intro attempt lastErr
    cases hop : op attempt with
    | ok a =>
      rw [retryLoop_succ_ok op d attempt 0 lastErr a hop]
      dsimp only
      refine ⟨⟨le_refl 1, le_refl 1⟩, by simp, ?_, by simp⟩
      intro b hb
      refine ⟨?_, by omega⟩
      injection hb with h
      subst h
      simpa using hop
    | error e =>
      rw [retryLoop_one_err op d attempt lastErr e hop]
      dsimp only
      refine ⟨⟨le_refl 1, le_refl 1⟩, by simp, by simp, ?_⟩
      intro oe hoe
      refine ⟨rfl, ⟨e, ?_, by simpa using hop⟩, ?_⟩
      · simpa using hoe.symm
      · intro j hj
        have : j = 0 := by omega
        subst this
        exact ⟨e, by simpa using hop⟩
  | succ m ih =>
    intro attempt lastErr
    cases hop : op attempt with
    | ok a =>
      rw [retryLoop_succ_ok op d attempt (m + 1) lastErr a hop]
      dsimp only
      refine ⟨⟨le_refl 1, by omega⟩, by simp, ?_, by simp⟩
      intro b hb
      refine ⟨?_, by omega⟩
      injection hb with h
      subst h
      simpa using hop
    | error e =>
      obtain ⟨⟨hlo, hhi⟩, hds, hok, herr⟩ := ih (attempt + 1) (some e)
      rw [retryLoop_succ2_err op d attempt m lastErr e hop]
      dsimp only
      refine ⟨⟨by omega, by omega⟩, ?_, ?_, ?_⟩
      · simp only [Nat.add_sub_cancel]
        rw [hds]
        have hr : (retryLoop op d (attempt + 1) (m + 1) (some e)).2.1 =
            ((retryLoop op d (attempt + 1) (m + 1) (some e)).2.1 - 1) + 1 := by omega
        conv_rhs => rw [hr, List.range_succ_eq_map]
        rw [List.map_cons, List.map_map]
        congr 1
        apply List.map_congr_left
        intro j _
        show d * 2 ^ (attempt + 1 + j) = d * 2 ^ (attempt + Nat.succ j)
        congr 1
        congr 1
        omega
      · intro b hb
        obtain ⟨h1, h2⟩ := hok b hb
        constructor
        · have heq : attempt + ((retryLoop op d (attempt + 1) (m + 1) (some e)).2.1 + 1 - 1)
              = attempt + 1 + ((retryLoop op d (attempt + 1) (m + 1) (some e)).2.1 - 1) := by omega
          rw [heq]
          exact h1
        · intro j hj
          match j with
          | 0 => exact ⟨e, by simpa using hop⟩
          | j' + 1 =>
            have hj' : j' < (retryLoop op d (attempt + 1) (m + 1) (some e)).2.1 - 1 := by omega
            obtain ⟨e', he'⟩ := h2 j' hj'
            exact ⟨e', by rw [show attempt + (j' + 1) = attempt + 1 + j' by omega]; exact he'⟩
      · intro oe hoe
        obtain ⟨h1, h2, h3⟩ := herr oe hoe
        refine ⟨by omega, ?_, ?_⟩
        · obtain ⟨e', he', hope⟩ := h2
          exact ⟨e', he', by rw [show attempt + (m + 1) = attempt + 1 + m by omega]; exact hope⟩
        · intro j hj
          match j with
          | 0 => exact ⟨e, by simpa using hop⟩
          | j' + 1 =>
            obtain ⟨e', he'⟩ := h3 j' (by omega)
            exact ⟨e', by rw [show attempt + (j' + 1) = attempt + 1 + j' by omega]; exact he'⟩

theorem retryWithBackoff_spec {A : Type} (op : Nat → Except String A) (m d : Nat) (hm : 1 ≤ m) :
    (1 ≤ (retryWithBackoff op m d).2.1 ∧ (retryWithBackoff op m d).2.1 ≤ m) ∧
    (retryWithBackoff op m d).2.2 =
      (List.range ((retryWithBackoff op m d).2.1 - 1)).map (fun j => d * 2 ^ j) ∧
    (∀ a, (retryWithBackoff op m d).1 = Except.ok a →
      op ((retryWithBackoff op m d).2.1 - 1) = Except.ok a ∧
      ∀ j < (retryWithBackoff op m d).2.1 - 1, ∃ e, op j = Except.error e) ∧
    (∀ e, (retryWithBackoff op m d).1 = Except.error e →
      (retryWithBackoff op m d).2.1 = m ∧ op (m - 1) = Except.error e ∧
      ∀ j < m, ∃ e2, op j = Except.error e2) := by
  obtain ⟨n, rfl⟩ : ∃ n, m = n + 1 := ⟨m - 1, by omega⟩
  obtain ⟨⟨hlo, hhi⟩, hds, hok, herr⟩ := retryLoop_spec op d n 0 none
  have hzero : ∀ j : Nat, 0 + j = j := fun j => Nat.zero_add j
  unfold retryWithBackoff
  rcases hres : retryLoop op d 0 (n + 1) none with ⟨res, cnt, ds⟩
  rw [hres] at hlo hhi hds hok herr
  dsimp only at hlo hhi hds hok herr
  match res with
  | Except.ok a =>
    dsimp only
    refine ⟨⟨hlo, hhi⟩, by simpa using hds, ?_, by simp⟩
    intro b hb
    injection hb with h
    subst h
    obtain ⟨h1, h2⟩ := hok a rfl
    exact ⟨by simpa using h1, fun j hj => by simpa using h2 j hj⟩
  | Except.error (some e) =>
    dsimp only
    refine ⟨⟨hlo, hhi⟩, by simpa using hds, by simp, ?_⟩
    intro e2 he2
    injection he2 with h
    subst h
    obtain ⟨h1, h2, h3⟩ := herr (some e) rfl
    obtain ⟨e3, he3, hope⟩ := h2
    injection he3 with h4
    subst h4
    refine ⟨h1, by simpa [Nat.add_sub_cancel] using hope, fun j hj => by simpa using h3 j hj⟩
  | Except.error none =>
    exfalso
    obtain ⟨h1, h2, h3⟩ := herr none rfl
    obtain ⟨e3, he3, _⟩ := h2
    exact Option.noConfusion he3

/-- C6: for every operation and every maxAttempts ≥ 1, `retryWithBackoff`
invokes the operation at most maxAttempts times, waits
`initialDelayMs * 2 ^ attempt` after each non-final failure, returns the
first successful result, and after the final failed attempt propagates
the last error unchanged. -/
theorem c6_retry_behavior {A : Type} (op : Nat → Except String A) (m d : Nat) (hm : 1 ≤ m) :
    (retryWithBackoff op m d).2.1 ≤ m ∧
    (retryWithBackoff op m d).2.2 =
      (List.range ((retryWithBackoff op m d).2.1 - 1)).map (fun j => d * 2 ^ j) ∧
    (∀ a, (retryWithBackoff op m d).1 = Except.ok a →
      op ((retryWithBackoff op m d).2.1 - 1) = Except.ok a ∧
      ∀ j < (retryWithBackoff op m d).2.1 - 1, ∃ e, op j = Except.error e) ∧
    (∀ e, (retryWithBackoff op m d).1 = Except.error e →
      (retryWithBackoff op m d).2.1 = m ∧ op (m - 1) = Except.error e ∧
      ∀ j < m, ∃ e2, op j = Except.error e2) ∧
    (∀ j < m, (∀ i < j, ∃ e, op i = Except.error e) →
      ∀ a, op j = Except.ok a →
        (retryWithBackoff op m d).1 = Except.ok a ∧ (retryWithBackoff op m d).2.1 = j + 1) := by
  obtain ⟨⟨hlo, hhi⟩, hds, hok, herr⟩ := retryWithBackoff_spec op m d hm
  refine ⟨hhi, hds, hok, herr, ?_⟩
  intro j hj hprev a hja
  cases hres : (retryWithBackoff op m d).1 with
  | ok b =>
    obtain ⟨h1, h2⟩ := hok b hres
    have hteq : (retryWithBackoff op m d).2.1 - 1 = j := by
      by_contra hne
      rcases Nat.lt_or_ge ((retryWithBackoff op m d).2.1 - 1) j with hlt | hge
      · obtain ⟨e, he⟩ := hprev _ hlt
        rw [he] at h1
        exact Except.noConfusion h1
      · have hlt2 : j < (retryWithBackoff op m d).2.1 - 1 := by omega
        obtain ⟨e, he⟩ := h2 j hlt2
        rw [he] at hja
        exact Except.noConfusion hja
    rw [hteq] at h1
    rw [hja] at h1
    injection h1 with hab
    subst hab
    exact ⟨rfl, by omega⟩
  | error e =>
    obtain ⟨_, _, hall⟩ := herr e hres
    obtain ⟨e2, he2⟩ := hall j hj
    rw [he2] at hja
    exact Except.noConfusion hja

/-- C6 witness: a concrete operation failing once then succeeding,
retried with three attempts and initial delay 100. -/
theorem c6_retry_behavior_witness :
    (1 : Nat) ≤ 3 ∧
    ((retryWithBackoff (fun i => if i = 0 then Except.error "boom" else Except.ok 7) 3 100).2.1 ≤ 3 ∧
    (retryWithBackoff (fun i => if i = 0 then Except.error "boom" else Except.ok 7) 3 100).2.2 =
      (List.range ((retryWithBackoff (fun i => if i = 0 then Except.error "boom" else Except.ok 7) 3 100).2.1 - 1)).map
        (fun j => 100 * 2 ^ j) ∧
    (∀ a, (retryWithBackoff (fun i => if i = 0 then Except.error "boom" else Except.ok 7) 3 100).1 = Except.ok a →
      (fun i => if i = 0 then Except.error "boom" else Except.ok 7)
          ((retryWithBackoff (fun i => if i = 0 then Except.error "boom" else Except.ok 7) 3 100).2.1 - 1) = Except.ok a ∧
      ∀ j < (retryWithBackoff (fun i => if i = 0 then Except.error "boom" else Except.ok 7) 3 100).2.1 - 1,
        ∃ e, (fun i => if i = 0 then Except.error "boom" else Except.ok 7) j = Except.error e) ∧
    (∀ e, (retryWithBackoff (fun i => if i = 0 then Except.error "boom" else Except.ok 7) 3 100).1 = Except.error e →
      (retryWithBackoff (fun i => if i = 0 then Except.error "boom" else Except.ok 7) 3 100).2.1 = 3 ∧
      (fun i => if i = 0 then Except.error "boom" else Except.ok 7) (3 - 1) = Except.error e ∧
      ∀ j < 3, ∃ e2, (fun i => if i = 0 then Except.error "boom" else Except.ok 7) j = Except.error e2) ∧
    (∀ j < 3, (∀ i < j, ∃ e, (fun i => if i = 0 then Except.error "boom" else Except.ok 7) i = Except.error e) →
      ∀ a, (fun i => if i = 0 then Except.error "boom" else Except.ok 7) j = Except.ok a →
        (retryWithBackoff (fun i => if i = 0 then Except.error "boom" else Except.ok 7) 3 100).1 = Except.ok a ∧
        (retryWithBackoff (fun i => if i = 0 then Except.error "boom" else Except.ok 7) 3 100).2.1 = j + 1)) :=
  ⟨by decide, c6_retry_behavior (fun i => if i = 0 then Except.error "boom" else Except.ok 7) 3 100 (by decide)⟩

/-- C5 counterexample: an operation that always fails with the
401-classified message of `handleElevenLabsError` (an AuthError, already
non-transient) is nevertheless re-invoked by the retry wrapper: three
invocations, not one. The claim that classified non-transient failures
are not retried is false on the code. -/
theorem c5_counterexample :
    (retryWithBackoff
        (fun _ => Except.error (handleElevenLabsError 401 "unauthorized" "voice creation") :
          Nat → Except String Nat) 3 1000).2.1 = 3 ∧
    (retryWithBackoff
        (fun _ => Except.error (handleElevenLabsError 401 "unauthorized" "voice creation") :
          Nat → Except String Nat) 3 1000).1 =
      Except.error (handleElevenLabsError 401 "unauthorized" "voice creation") := by
  constructor
  · rfl
  · rfl

/-- C5 amended: `retryWithBackoff` retries every failure uniformly,
regardless of how `handleElevenLabsError` classified it — an operation
failing with any fixed error message (in particular a 401-, 402- or
422-classified one) is invoked exactly maxRetries times and the final
error is propagated unchanged; classification affects only the message,
never retry eligibility. -/
theorem c5_amended_uniform_retry {A : Type} (e : String) (m d : Nat) (hm : 1 ≤ m) :
    (retryWithBackoff (fun _ => Except.error e : Nat → Except String A) m d).2.1 = m ∧
    (retryWithBackoff (fun _ => Except.error e : Nat → Except String A) m d).1 =
      Except.error e := by
  obtain ⟨⟨hlo, hhi⟩, _, hok, herr⟩ :=
    retryWithBackoff_spec (fun _ => Except.error e : Nat → Except String A) m d hm
  cases hres : (retryWithBackoff (fun _ => Except.error e : Nat → Except String A) m d).1 with
  | ok a =>
    obtain ⟨h1, _⟩ := hok a hres
    exact absurd h1 (fun h => Except.noConfusion h)
  | error e2 =>
    obtain ⟨h1, h2, _⟩ := herr e2 hres
    injection h2 with h3
    subst h3
    exact ⟨h1, rfl⟩

/-- C5 amended witness: the 401-classified AuthError message, three
attempts. -/
theorem c5_amended_uniform_retry_witness :
    (retryWithBackoff
        (fun _ => Except.error (handleElevenLabsError 401 "x" "op") : Nat → Except String Nat)
        3 2000).2.1 = 3 ∧
    (retryWithBackoff
        (fun _ => Except.error (handleElevenLabsError 401 "x" "op") : Nat → Except String Nat)
        3 2000).1 = Except.error (handleElevenLabsError 401 "x" "op") :=
  c5_amended_uniform_retry (handleElevenLabsError 401 "x" "op") 3 2000 (by decide)

/-- Substring containment is transitive through the fixed inclusion of
"limit" in "rate limit". -/
theorem jsIncludes_rate_limit_includes_limit (msg : String) :
    jsIncludes msg "rate limit" = true → jsIncludes msg "limit" = true := by
  intro h
  unfold jsIncludes at h ⊢
  have h2 : "limit".data <:+: "rate limit".data := by decide
  have h3 : "rate limit".data <:+: msg.data := of_decide_eq_true h
  exact decide_eq_true (h2.trans h3)

/-- C10: the status code computed by the failure handler is never 429 —
every message containing "rate limit" also contains "limit", so the 402
branch fires first and the 429 branch is unreachable; rate-limit failures
are reported with status 402. -/
theorem c10_status_never_429 (msg : String) :
    determineStatusCode msg ≠ 429 ∧
    (jsIncludes msg "rate limit" = true → determineStatusCode msg = 402) := by
  unfold determineStatusCode
  cases hq : (jsIncludes msg "quota" || jsIncludes msg "limit") with
  | true => simp [hq]
  | false =>
    have hlim : jsIncludes msg "limit" = false := (Bool.or_eq_false_iff.mp hq).2
    have hrl : jsIncludes msg "rate limit" = false := by
      cases hr2 : jsIncludes msg "rate limit" with
      | false => rfl
      | true =>
        rw [jsIncludes_rate_limit_includes_limit msg hr2] at hlim
        exact absurd hlim (by simp)
    simp only [hq, hrl, Bool.false_eq_true, if_false]
    constructor
    · cases (jsIncludes msg "invalid" || jsIncludes msg "format") <;>
        cases (jsIncludes msg "API key") <;> simp
    · intro h
      exact h.elim

/-- C10 witness: a concrete rate-limit message is mapped to 402. -/
theorem c10_status_never_429_witness :
    determineStatusCode "rate limit exceeded" ≠ 429 ∧
    determineStatusCode "rate limit exceeded" = 402 :=
  ⟨(c10_status_never_429 "rate limit exceeded").1,
    (c10_status_never_429 "rate limit exceeded").2 (by decide)⟩

/-- C4 counterexample: on a stored project whose stability is 3/2
(outside [0, 1]), the run does not fail with InvalidInput and does not
avoid provider calls — it completes successfully and createVoice was
called, because `runGeneration` performs no parameter-range check. -/
theorem c4_counterexample :
    (runGeneration (some "p4") (some outOfRangeProject) oneSample allOkEnv).response
      = Except.ok (publicUrlFor "u1" "p4") ∧
    ProviderCall.createVoice ∈ (runGeneration (some "p4") (some outOfRangeProject) oneSample allOkEnv).calls := by
  constructor
  · rfl
  · decide

/-- C4 amended: the [0, 1] range invariant on the voice parameters is
enforced at write time by the database trigger `validate_voice_parameters`
— the trigger accepts a row exactly when every non-null parameter lies in
[0, 1], so no stored project can carry an out-of-range value;
`runGeneration` itself performs no such check (see the counterexample). -/
theorem c4_amended_trigger_range (p : Project) :
    validate_voice_parameters p = Except.ok () ↔
      ((∀ v, p.voice_stability = some v → 0 ≤ v ∧ v ≤ 1) ∧
       (∀ v, p.voice_similarity_boost = some v → 0 ≤ v ∧ v ≤ 1) ∧
       (∀ v, p.voice_style = some v → 0 ≤ v ∧ v ≤ 1)) := by
  rcases hs : p.voice_stability with _ | v1 <;>
    rcases hb : p.voice_similarity_boost with _ | v2 <;>
      rcases hy : p.voice_style with _ | v3 <;>
        simp only [validate_voice_parameters, hs, hb, hy] <;>
          split_ifs <;> simp_all [not_lt] <;> intros <;>
            rcases ‹_ ∨ _› with hx | hx <;> linarith

theorem passA_fold_projects (cs : List SweepProject) :
    ∀ (acc : SweepState × Nat),
    ((cs.foldl passAStep acc).1).projects =
      acc.1.projects.map (fun p =>
        if cs.any (fun c => c.elevenlabs_voice_id.isSome && p.id == c.id) then
          { p with elevenlabs_voice_id := none } else p) := by
  induction cs with
  | nil =>
    intro acc
    simp
  | cons c cs ih =>
    intro acc
    rw [List.foldl_cons, ih]
    cases hc : c.elevenlabs_voice_id with
    | none =>
      have hstep : passAStep acc c = acc := by
        unfold passAStep
        rw [hc]
      rw [hstep]
      apply List.map_congr_left
      intro p _
      simp [List.any_cons, hc]
    | some vid =>
      have hstep : (passAStep acc c).1.projects = clearVoiceId c.id acc.1.projects := by
        unfold passAStep
        rw [hc]
      rw [hstep]
      unfold clearVoiceId
      rw [List.map_map]
      apply List.map_congr_left
      intro p _
      simp only [Function.comp_apply]
      by_cases hpc : (p.id == c.id) = true
      · simp [List.any_cons, hc, hpc]
      · simp [List.any_cons, hc, hpc]

theorem passA_no_candidates (now : Nat) (s : SweepState) :
    (passA now s).1.projects.filter (passACandidate now) = [] := by
  unfold passA
  rw [List.filter_eq_nil_iff]
  intro q hq
  rw [passA_fold_projects] at hq
  rw [List.mem_map] at hq
  obtain ⟨p, hp, rfl⟩ := hq
  by_cases hcond :
      ((s.projects.filter (passACandidate now)).any
        (fun c => c.elevenlabs_voice_id.isSome && p.id == c.id)) = true
  · rw [if_pos hcond]
    simp [passACandidate]
  · rw [if_neg hcond]
    intro hcand
    apply hcond
    rw [List.any_eq_true]
    refine ⟨p, List.mem_filter.mpr ⟨hp, hcand⟩, ?_⟩
    have hsome : p.elevenlabs_voice_id.isSome = true := by
      unfold passACandidate at hcand
      exact ((Bool.and_eq_true _ _).mp hcand).1
    simp [hsome]

theorem passB_fold_projects (known : List String) (vs : List ProviderVoice) :
    ∀ (acc : SweepState × Nat), ((vs.foldl (passBStep known) acc).1).projects = acc.1.projects := by
  induction vs with
  | nil =>
    intro acc
    rfl
  | cons v vs ih =>
    intro acc
    rw [List.foldl_cons, ih]
    unfold passBStep
    split <;> rfl

theorem passB_fold_voices (known : List String) (vs : List ProviderVoice) :
    ∀ (acc : SweepState × Nat),
    ((vs.foldl (passBStep known) acc).1).voices =
      acc.1.voices.filter
        (fun w => !(vs.any (fun v => isVoiceOrphan known v && w.voice_id == v.voice_id))) := by
  induction vs with
  | nil =>
    intro acc
    simp
  | cons v vs ih =>
    intro acc
    rw [List.foldl_cons, ih]
    cases ho : isVoiceOrphan known v with
    | false =>
      have hstep : passBStep known acc v = acc := by
        unfold passBStep
        rw [ho]
        rfl
      rw [hstep]
      apply List.filter_congr
      intro w _
      simp [List.any_cons, ho]
    | true =>
      have hstep : (passBStep known acc v).1.voices =
          acc.1.voices.filter (fun w => !(w.voice_id == v.voice_id)) := by
        unfold passBStep
        rw [ho]
        rfl
      rw [hstep, List.filter_filter]
      apply List.filter_congr
      intro w _
      simp [List.any_cons, ho, Bool.not_or, Bool.and_comm]

theorem passB_fold_id (known : List String) :
    ∀ (vs : List ProviderVoice), (∀ v ∈ vs, isVoiceOrphan known v = false) →
    ∀ (acc : SweepState × Nat), vs.foldl (passBStep known) acc = acc := by
  intro vs
  induction vs with
  | nil =>
    intro _ acc
    rfl
  | cons v vs ih =>
    intro h acc
    rw [List.foldl_cons]
    have hv : isVoiceOrphan known v = false := h v (by simp)
    have hstep : passBStep known acc v = acc := by
      unfold passBStep
      rw [hv]
      rfl
    rw [hstep]
    exact ih (fun u hu => h u (by simp [hu])) acc

/-- C9: the cleanup sweep is idempotent — running it twice in a row with
no intervening state change (same database and provider state, same
clock) cleans zero items on the second run, in both the
project-reconciliation pass and the orphaned-voice pass. -/
theorem c9_sweep_idempotent (now : Nat) (s : SweepState) :
    (sweep now (sweep now s).1).2 = (0, 0) := by
  have hproj : (passB (passA now s).1).1.projects = (passA now s).1.projects := by
    unfold passB
    exact passB_fold_projects _ _ _
  have hfilter : (passB (passA now s).1).1.projects.filter (passACandidate now) = [] := by
    rw [hproj]
    exact passA_no_candidates now s
  have hpa2 : passA now (passB (passA now s).1).1 = ((passB (passA now s).1).1, 0) := by
    have hdef : passA now (passB (passA now s).1).1 =
        ((passB (passA now s).1).1.projects.filter (passACandidate now)).foldl
          passAStep ((passB (passA now s).1).1, 0) := rfl
    rw [hdef, hfilter]
    rfl
  have hnoorph : ∀ v ∈ (passB (passA now s).1).1.voices,
      isVoiceOrphan (knownVoiceIds (passB (passA now s).1).1) v = false := by
    intro v hv
    have hk : knownVoiceIds (passB (passA now s).1).1 = knownVoiceIds (passA now s).1 := by
      unfold knownVoiceIds
      rw [hproj]
    rw [hk]
    unfold passB at hv
    rw [passB_fold_voices] at hv
    rw [List.mem_filter] at hv
    obtain ⟨hv1, hv2⟩ := hv
    cases ho : isVoiceOrphan (knownVoiceIds (passA now s).1) v with
    | false => rfl
    | true =>
      exfalso
      rw [Bool.not_eq_true', List.any_eq_false] at hv2
      exact hv2 v hv1 (by simp [ho])
  have hpb2 : passB (passB (passA now s).1).1 = ((passB (passA now s).1).1, 0) := by
    unfold passB
    exact passB_fold_id _ _ hnoorph _
  show (sweep now ((passB (passA now s).1).1, (passA now s).2, (passB (passA now s).1).2).1).2 = (0, 0)
  dsimp only
  unfold sweep
  rw [hpa2]
  dsimp only
  rw [hpb2]

theorem failResult_inv (pid : String) (q : Project) (v : Option String)
    (calls : List ProviderCall) (fetched : List Nat) (msg : String) (hq : q.id = pid) :
    TerminalInv (failResult (some pid) (some q) v calls fetched msg) := by
  subst hq
  unfold TerminalInv
  cases v with
  | none =>
    refine ⟨fun url h => Except.noConfusion h, ?_, fun vid h => Option.noConfusion h⟩
    intro err _
    refine ⟨{ q with status := "failed" }, ?_, rfl, fun h => absurd rfl h⟩
    show some (if (q.id == q.id) = true then { q with status := "failed" } else q)
        = some { q with status := "failed" }
    rw [if_pos (beq_self_eq_true q.id)]
  | some vid =>
    refine ⟨fun url h => Except.noConfusion h, ?_, ?_⟩
    · intro err _
      refine ⟨{ q with elevenlabs_voice_id := none, status := "failed" }, ?_, rfl, fun _ => rfl⟩
      show some (if (q.id == q.id) = true then
            { q with elevenlabs_voice_id := none, status := "failed" } else q)
          = some { q with elevenlabs_voice_id := none, status := "failed" }
      rw [if_pos (beq_self_eq_true q.id)]
    · intro vid2 h
      injection h with h2
      subst h2
      show ProviderCall.deleteVoice vid ∈ calls ++ [ProviderCall.deleteVoice vid]
      simp

theorem afterVoiceCreated_inv (pid : String) (p : Project) (fetched : List Nat)
    (calls : List ProviderCall) (vid : String) (env : Env) (hp : p.id = pid) :
    TerminalInv (afterVoiceCreated pid p fetched calls vid env) := by
  simp only [afterVoiceCreated]
  by_cases hscript : jsScriptMissing p.script_text = true
  · rw [if_pos hscript]
    exact failResult_inv pid _ _ _ _ _ hp
  · rw [if_neg hscript]
    cases hres : (retryWithBackoff env.synthesizeAttempts 3 2000).1 with
    | error e =>
      exact failResult_inv pid _ _ _ _ _ hp
    | ok size =>
      dsimp only
      by_cases hsize : size = 0
      · rw [if_pos hsize]
        exact failResult_inv pid _ _ _ _ _ hp
      · rw [if_neg hsize]
        cases hup : env.uploadError with
        | some m =>
          exact failResult_inv pid _ _ _ _ _ hp
        | none =>
          unfold TerminalInv
          refine ⟨?_, ?_, ?_⟩
          · intro url h
            refine ⟨_, rfl, rfl, ?_, rfl⟩
            intro hcontra
            exact Option.noConfusion hcontra
          · intro err h
            exact Except.noConfusion h
          · intro vid2 h
            injection h with h2
            subst h2
            show ProviderCall.deleteVoice vid ∈ _ ++ [ProviderCall.deleteVoice vid]
            simp

theorem afterSamplesLoaded_inv (pid : String) (p : Project) (samples : List Sample)
    (env : Env) (hp : p.id = pid) :
    TerminalInv (afterSamplesLoaded pid p samples env) := by
  simp only [afterSamplesLoaded]
  by_cases hcnt : ((List.range (min samples.length 25)).countP (fun i => env.sampleOk i) = 0)
  · rw [if_pos hcnt]
    exact failResult_inv pid _ _ _ _ _ hp
  · rw [if_neg hcnt]
    cases hres : (retryWithBackoff env.createVoiceAttempts 3 2000).1 with
    | error e =>
      exact failResult_inv pid _ _ _ _ _ hp
    | ok ov =>
      cases ov with
      | none =>
        exact failResult_inv pid _ _ _ _ _ hp
      | some vid =>
        exact afterVoiceCreated_inv pid _ _ _ vid env hp

theorem runGeneration_valid (pid : String) (p : Project) (samples : List Sample) (env : Env)
    (hp : p.id = pid) (hs : samples ≠ []) :
    runGeneration (some pid) (some p) samples env = afterSamplesLoaded pid p samples env := by
  subst hp
  unfold runGeneration
  dsimp only
  rw [if_pos (beq_self_eq_true p.id), if_neg (by simp [List.isEmpty_iff, hs])]

/-- C1: for every valid project (row present under the requested id) with
at least one sample and a valid script, the run terminates either with
status `completed`, a non-null `generated_audio_url` and a null stored
voice id, or with status `failed` and a null stored voice id whenever the
run recorded one; and no terminal state leaves a voice id recorded by the
run without at least one deletion attempt. -/
theorem c1_terminal_state_invariant (pid : String) (p : Project) (samples : List Sample)
    (env : Env) (hp : p.id = pid) (hs : samples ≠ [])
    (hscript : jsScriptMissing p.script_text = false) :
    (∀ url, (runGeneration (some pid) (some p) samples env).response = Except.ok url →
      ∃ q, (runGeneration (some pid) (some p) samples env).project = some q ∧
        q.status = "completed" ∧ q.generated_audio_url ≠ none ∧ q.elevenlabs_voice_id = none) ∧
    (∀ err, (runGeneration (some pid) (some p) samples env).response = Except.error err →
      ∃ q, (runGeneration (some pid) (some p) samples env).project = some q ∧
        q.status = "failed" ∧
        ((runGeneration (some pid) (some p) samples env).recordedVoiceId ≠ none →
          q.elevenlabs_voice_id = none)) ∧
    (∀ vid, (runGeneration (some pid) (some p) samples env).recordedVoiceId = some vid →
      ProviderCall.deleteVoice vid ∈ (runGeneration (some pid) (some p) samples env).calls) := by
  rw [runGeneration_valid pid p samples env hp hs]
  exact afterSamplesLoaded_inv pid p samples env hp

/-- C1 witness: the all-success environment on a concrete valid project. -/
theorem c1_terminal_state_invariant_witness :
    (∀ url, (runGeneration (some "p1") (some demoProject) oneSample allOkEnv).response = Except.ok url →
      ∃ q, (runGeneration (some "p1") (some demoProject) oneSample allOkEnv).project = some q ∧
        q.status = "completed" ∧ q.generated_audio_url ≠ none ∧ q.elevenlabs_voice_id = none) ∧
    (∀ err, (runGeneration (some "p1") (some demoProject) oneSample allOkEnv).response = Except.error err →
      ∃ q, (runGeneration (some "p1") (some demoProject) oneSample allOkEnv).project = some q ∧
        q.status = "failed" ∧
        ((runGeneration (some "p1") (some demoProject) oneSample allOkEnv).recordedVoiceId ≠ none →
          q.elevenlabs_voice_id = none)) ∧
    (∀ vid, (runGeneration (some "p1") (some demoProject) oneSample allOkEnv).recordedVoiceId = some vid →
      ProviderCall.deleteVoice vid ∈ (runGeneration (some "p1") (some demoProject) oneSample allOkEnv).calls) :=
  c1_terminal_state_invariant "p1" demoProject oneSample allOkEnv rfl (by decide) (by decide)

/-- C3 counterexample: on a project with no script text, a surviving
sample, and a successful provider, the run does reach the failure with
the script message — but only after calling createVoice: the calls list
contains a createVoice call, refuting "zero provider calls, in
particular no createVoice call". -/
theorem c3_counterexample :
    (runGeneration (some "p3") (some noScriptProject) oneSample allOkEnv).response
      = Except.error (noScriptMsg, 500) ∧
    ProviderCall.createVoice ∈
      (runGeneration (some "p3") (some noScriptProject) oneSample allOkEnv).calls := by
  constructor
  · rfl
  · decide

/-- C3 amended: a project whose script is absent or empty after trimming
fails with the script error, but the check runs only after voice
creation: the sample downloads and the createVoice call happen first (at
least one createVoice invocation is in the call list), no synthesize call
is ever made, and the run ends `failed` with the created voice id cleared
and a deletion attempted. -/
theorem c3_amended_script_checked_after_createVoice (pid : String) (p : Project)
    (samples : List Sample) (env : Env) (vid : String)
    (hp : p.id = pid) (hs : samples ≠ [])
    (hscript : jsScriptMissing p.script_text = true)
    (hcnt : (List.range (min samples.length 25)).countP (fun i => env.sampleOk i) ≠ 0)
    (hcv : (retryWithBackoff env.createVoiceAttempts 3 2000).1 = Except.ok (some vid)) :
    (runGeneration (some pid) (some p) samples env).response
      = Except.error (noScriptMsg, 500) ∧
    ProviderCall.createVoice ∈ (runGeneration (some pid) (some p) samples env).calls ∧
    (∀ v s, ProviderCall.synthesize v s ∉ (runGeneration (some pid) (some p) samples env).calls) ∧
    (∃ q, (runGeneration (some pid) (some p) samples env).project = some q ∧
      q.status = "failed" ∧ q.elevenlabs_voice_id = none) ∧
    ProviderCall.deleteVoice vid ∈ (runGeneration (some pid) (some p) samples env).calls := by
  have hone : 1 ≤ (retryWithBackoff env.createVoiceAttempts 3 2000).2.1 :=
    (retryWithBackoff_spec env.createVoiceAttempts 3 2000 (by omega)).1.1
  subst hp
  rw [runGeneration_valid p.id p samples env rfl hs]
  simp only [afterSamplesLoaded]
  rw [if_neg hcnt, hcv]
  dsimp only
  simp only [afterVoiceCreated]
  rw [if_pos hscript]
  have h500 : determineStatusCode noScriptMsg = 500 := by decide
  refine ⟨?_, ?_, ?_, ?_, ?_⟩
  · show Except.error (noScriptMsg, determineStatusCode noScriptMsg)
        = Except.error (noScriptMsg, 500)
    rw [h500]
  · show ProviderCall.createVoice ∈
        List.replicate (retryWithBackoff env.createVoiceAttempts 3 2000).2.1 ProviderCall.createVoice
          ++ [ProviderCall.deleteVoice vid]
    rw [List.mem_append]
    left
    rw [List.mem_replicate]
    exact ⟨by omega, rfl⟩
  · intro v s
    show ProviderCall.synthesize v s ∉
        List.replicate (retryWithBackoff env.createVoiceAttempts 3 2000).2.1 ProviderCall.createVoice
          ++ [ProviderCall.deleteVoice vid]
    rw [List.mem_append]
    rintro (hmem | hmem)
    · exact absurd (List.mem_replicate.mp hmem).2 (by simp)
    · simp at hmem
  · refine ⟨{ p with elevenlabs_voice_id := none, status := "failed" }, ?_, rfl, rfl⟩
    show some (if (p.id == p.id) = true then _ else _) = _
    rw [if_pos (beq_self_eq_true p.id)]
  · show ProviderCall.deleteVoice vid ∈
        List.replicate (retryWithBackoff env.createVoiceAttempts 3 2000).2.1 ProviderCall.createVoice
          ++ [ProviderCall.deleteVoice vid]
    simp

/-- C3 amended witness: the concrete no-script project under the
all-success environment. -/
theorem c3_amended_script_checked_after_createVoice_witness :
    (runGeneration (some "p3") (some noScriptProject) oneSample allOkEnv).response
      = Except.error (noScriptMsg, 500) ∧
    ProviderCall.createVoice ∈
      (runGeneration (some "p3") (some noScriptProject) oneSample allOkEnv).calls ∧
    (∀ v s, ProviderCall.synthesize v s ∉
      (runGeneration (some "p3") (some noScriptProject) oneSample allOkEnv).calls) ∧
    (∃ q, (runGeneration (some "p3") (some noScriptProject) oneSample allOkEnv).project = some q ∧
      q.status = "failed" ∧ q.elevenlabs_voice_id = none) ∧
    ProviderCall.deleteVoice "v1" ∈
      (runGeneration (some "p3") (some noScriptProject) oneSample allOkEnv).calls :=
  c3_amended_script_checked_after_createVoice "p3" noScriptProject oneSample allOkEnv "v1"
    rfl (by decide) (by decide) (by decide) rfl

theorem mem_failResult_calls {c : ProviderCall} (req : Option String) (dbp : Option Project)
    (v : Option String) (calls : List ProviderCall) (fetched : List Nat) (msg : String) :
    c ∈ (failResult req dbp v calls fetched msg).calls →
    c ∈ calls ∨ ∃ vid, c = ProviderCall.deleteVoice vid := by
  unfold failResult
  rcases req with _ | pid
  · intro h
    exact Or.inl h
  · rcases v with _ | vid
    · intro h
      exact Or.inl h
    · intro h
      rcases List.mem_append.mp h with h2 | h2
      · exact Or.inl h2
      · right
        exact ⟨vid, by simpa using h2⟩

theorem afterVoiceCreated_synth (pid : String) (p : Project) (fetched : List Nat)
    (calls : List ProviderCall) (vid : String) (env : Env) (v : String) (s : VoiceSettings) :
    ProviderCall.synthesize v s ∈ (afterVoiceCreated pid p fetched calls vid env).calls →
    ProviderCall.synthesize v s ∈ calls ∨ (v = vid ∧ s = settingsSent p) := by
  simp only [afterVoiceCreated]
  by_cases hscript : jsScriptMissing p.script_text = true
  · rw [if_pos hscript]
    intro h
    rcases mem_failResult_calls _ _ _ _ _ _ h with h2 | ⟨vid2, h2⟩
    · exact Or.inl h2
    · simp at h2
  · rw [if_neg hscript]
    cases hres : (retryWithBackoff env.synthesizeAttempts 3 2000).1 with
    | error e =>
      intro h
      rcases mem_failResult_calls _ _ _ _ _ _ h with h2 | ⟨vid2, h2⟩
      · rcases List.mem_append.mp h2 with h3 | h3
        · exact Or.inl h3
        · right
          have h4 := (List.mem_replicate.mp h3).2
          injection h4 with h5 h6
          exact ⟨h5, h6⟩
      · simp at h2
    | ok size =>
      dsimp only
      by_cases hsize : size = 0
      · rw [if_pos hsize]
        intro h
        rcases mem_failResult_calls _ _ _ _ _ _ h with h2 | ⟨vid2, h2⟩
        · rcases List.mem_append.mp h2 with h3 | h3
          · exact Or.inl h3
          · right
            have h4 := (List.mem_replicate.mp h3).2
            injection h4 with h5 h6
            exact ⟨h5, h6⟩
        · simp at h2
      · rw [if_neg hsize]
        cases hup : env.uploadError with
        | some m =>
          intro h
          rcases mem_failResult_calls _ _ _ _ _ _ h with h2 | ⟨vid2, h2⟩
          · rcases List.mem_append.mp h2 with h3 | h3
            · exact Or.inl h3
            · right
              have h4 := (List.mem_replicate.mp h3).2
              injection h4 with h5 h6
              exact ⟨h5, h6⟩
          · simp at h2
        | none =>
          intro h
          have h1 : ProviderCall.synthesize v s ∈
              calls ++ List.replicate (retryWithBackoff env.synthesizeAttempts 3 2000).2.1
                (ProviderCall.synthesize vid (settingsSent p))
                ++ [ProviderCall.deleteVoice vid] := h
          rcases List.mem_append.mp h1 with h2 | h2
          · rcases List.mem_append.mp h2 with h3 | h3
            · exact Or.inl h3
            · right
              have h4 := (List.mem_replicate.mp h3).2
              injection h4 with h5 h6
              exact ⟨h5, h6⟩
          · simp at h2

theorem afterSamplesLoaded_synth (pid : String) (p : Project) (samples : List Sample)
    (env : Env) (v : String) (s : VoiceSettings) :
    ProviderCall.synthesize v s ∈ (afterSamplesLoaded pid p samples env).calls →
    s = settingsSent p := by
  simp only [afterSamplesLoaded]
  by_cases hcnt : ((List.range (min samples.length 25)).countP (fun i => env.sampleOk i) = 0)
  · rw [if_pos hcnt]
    intro h
    rcases mem_failResult_calls _ _ _ _ _ _ h with h2 | ⟨vid2, h2⟩
    · simp at h2
    · simp at h2
  · rw [if_neg hcnt]
    cases hres : (retryWithBackoff env.createVoiceAttempts 3 2000).1 with
    | error e =>
      intro h
      rcases mem_failResult_calls _ _ _ _ _ _ h with h2 | ⟨vid2, h2⟩
      · exact absurd (List.mem_replicate.mp h2).2 (by simp)
      · simp at h2
    | ok ov =>
      cases ov with
      | none =>
        intro h
        rcases mem_failResult_calls _ _ _ _ _ _ h with h2 | ⟨vid2, h2⟩
        · exact absurd (List.mem_replicate.mp h2).2 (by simp)
        · simp at h2
      | some vid =>
        intro h
        rcases afterVoiceCreated_synth _ _ _ _ _ _ _ _ h with h2 | ⟨_, h2⟩
        · exact absurd (List.mem_replicate.mp h2).2 (by simp)
        · exact h2

/-- C7: whatever the run and environment, any synthesize call it performs
carries exactly the stored voice settings — a stored value (including an
explicit 0 or false) is sent unchanged, and the defaults 0.5, 0.75, 0.0,
true are substituted only when the stored column is null. -/
theorem c7_settings_round_trip (req : Option String) (dbProject : Option Project)
    (samples : List Sample) (env : Env) (v : String) (s : VoiceSettings)
    (h : ProviderCall.synthesize v s ∈ (runGeneration req dbProject samples env).calls) :
    ∃ p, dbProject = some p ∧ s = settingsSent p ∧
      (∀ x, p.voice_stability = some x → s.stability = x) ∧
      (p.voice_stability = none → s.stability = mkRat 1 2) ∧
      (∀ x, p.voice_similarity_boost = some x → s.similarity_boost = x) ∧
      (p.voice_similarity_boost = none → s.similarity_boost = mkRat 3 4) ∧
      (∀ x, p.voice_style = some x → s.style = x) ∧
      (p.voice_style = none → s.style = 0) ∧
      (∀ b, p.voice_speaker_boost = some b → s.use_speaker_boost = b) ∧
      (p.voice_speaker_boost = none → s.use_speaker_boost = true) := by
  have hsp : ∃ p, dbProject = some p ∧ s = settingsSent p := by
    unfold runGeneration at h
    rcases req with _ | pid
    · rcases mem_failResult_calls _ _ _ _ _ _ h with h2 | ⟨vid2, h2⟩
      · simp at h2
      · simp at h2
    · rcases dbProject with _ | p
      · rcases mem_failResult_calls _ _ _ _ _ _ h with h2 | ⟨vid2, h2⟩
        · simp at h2
        · simp at h2
      · dsimp only at h
        by_cases hid : (p.id == pid) = true
        · rw [if_pos hid] at h
          by_cases hempty : samples.isEmpty = true
          · rw [if_pos hempty] at h
            rcases mem_failResult_calls _ _ _ _ _ _ h with h2 | ⟨vid2, h2⟩
            · simp at h2
            · simp at h2
          · rw [if_neg hempty] at h
            exact ⟨p, rfl, afterSamplesLoaded_synth _ _ _ _ _ _ h⟩
        · rw [if_neg hid] at h
          rcases mem_failResult_calls _ _ _ _ _ _ h with h2 | ⟨vid2, h2⟩
          · simp at h2
          · simp at h2
  obtain ⟨p, hdb, hset⟩ := hsp
  subst hset
  refine ⟨p, hdb, rfl, ?_, ?_, ?_, ?_, ?_, ?_, ?_, ?_⟩
  · intro x hx
    simp [settingsSent, hx]
  · intro hx
    simp [settingsSent, hx]
  · intro x hx
    simp [settingsSent, hx]
  · intro hx
    simp [settingsSent, hx]
  · intro x hx
    simp [settingsSent, hx]
  · intro hx
    simp [settingsSent, hx]
  · intro b hb
    simp [settingsSent, hb]
  · intro hb
    simp [settingsSent, hb]

/-- C7 witness: the demo project stores an explicit stability 0; the
synthesize call of the all-success run carries 0, not the 0.5 default,
and the null columns get the defaults. -/
theorem c7_settings_round_trip_witness :
    ∃ p, some demoProject = some p ∧
      (⟨0, mkRat 3 4, 0, true⟩ : VoiceSettings) = settingsSent p ∧
      (∀ x, p.voice_stability = some x → (⟨0, mkRat 3 4, 0, true⟩ : VoiceSettings).stability = x) ∧
      (p.voice_stability = none → (⟨0, mkRat 3 4, 0, true⟩ : VoiceSettings).stability = mkRat 1 2) ∧
      (∀ x, p.voice_similarity_boost = some x →
        (⟨0, mkRat 3 4, 0, true⟩ : VoiceSettings).similarity_boost = x) ∧
      (p.voice_similarity_boost = none →
        (⟨0, mkRat 3 4, 0, true⟩ : VoiceSettings).similarity_boost = mkRat 3 4) ∧
      (∀ x, p.voice_style = some x → (⟨0, mkRat 3 4, 0, true⟩ : VoiceSettings).style = x) ∧
      (p.voice_style = none → (⟨0, mkRat 3 4, 0, true⟩ : VoiceSettings).style = 0) ∧
      (∀ b, p.voice_speaker_boost = some b →
        (⟨0, mkRat 3 4, 0, true⟩ : VoiceSettings).use_speaker_boost = b) ∧
      (p.voice_speaker_boost = none →
        (⟨0, mkRat 3 4, 0, true⟩ : VoiceSettings).use_speaker_boost = true) :=
  c7_settings_round_trip (some "p1") (some demoProject) oneSample allOkEnv "v1"
    ⟨0, mkRat 3 4, 0, true⟩ (by decide)

theorem failResult_fetches (req : Option String) (dbp : Option Project) (v : Option String)
    (calls : List ProviderCall) (fetched : List Nat) (msg : String) :
    (failResult req dbp v calls fetched msg).sampleFetches = fetched := by
  unfold failResult
  rcases req with _ | pid <;> rcases v with _ | vid <;> rfl

theorem failResult_response (req : Option String) (dbp : Option Project) (v : Option String)
    (calls : List ProviderCall) (fetched : List Nat) (msg : String) :
    (failResult req dbp v calls fetched msg).response
      = Except.error (msg, determineStatusCode msg) := by
  unfold failResult
  rcases req with _ | pid <;> rcases v with _ | vid <;> rfl

theorem failResult_calls_mono {c : ProviderCall} (req : Option String) (dbp : Option Project)
    (v : Option String) (calls : List ProviderCall) (fetched : List Nat) (msg : String)
    (h : c ∈ calls) :
    c ∈ (failResult req dbp v calls fetched msg).calls := by
  unfold failResult
  rcases req with _ | pid <;> rcases v with _ | vid <;> simp [h]

theorem afterVoiceCreated_fetches (pid : String) (p : Project) (fetched : List Nat)
    (calls : List ProviderCall) (vid : String) (env : Env) :
    (afterVoiceCreated pid p fetched calls vid env).sampleFetches = fetched := by
  simp only [afterVoiceCreated]
  by_cases hscript : jsScriptMissing p.script_text = true
  · rw [if_pos hscript]
    exact failResult_fetches _ _ _ _ _ _
  · rw [if_neg hscript]
    cases hres : (retryWithBackoff env.synthesizeAttempts 3 2000).1 with
    | error e => exact failResult_fetches _ _ _ _ _ _
    | ok size =>
      dsimp only
      by_cases hsize : size = 0
      · rw [if_pos hsize]
        exact failResult_fetches _ _ _ _ _ _
      · rw [if_neg hsize]
        cases hup : env.uploadError with
        | some m => exact failResult_fetches _ _ _ _ _ _
        | none => rfl

theorem afterVoiceCreated_calls_mono (pid : String) (p : Project) (fetched : List Nat)
    (calls : List ProviderCall) (vid : String) (env : Env) (c : ProviderCall) (h : c ∈ calls) :
    c ∈ (afterVoiceCreated pid p fetched calls vid env).calls := by
  simp only [afterVoiceCreated]
  by_cases hscript : jsScriptMissing p.script_text = true
  · rw [if_pos hscript]
    exact failResult_calls_mono _ _ _ _ _ _ h
  · rw [if_neg hscript]
    cases hres : (retryWithBackoff env.synthesizeAttempts 3 2000).1 with
    | error e => exact failResult_calls_mono _ _ _ _ _ _ (by simp [h])
    | ok size =>
      dsimp only
      by_cases hsize : size = 0
      · rw [if_pos hsize]
        exact failResult_calls_mono _ _ _ _ _ _ (by simp [h])
      · rw [if_neg hsize]
        cases hup : env.uploadError with
        | some m => exact failResult_calls_mono _ _ _ _ _ _ (by simp [h])
        | none =>
          show c ∈ _ ++ List.replicate _ _ ++ [ProviderCall.deleteVoice vid]
          simp [h]

/-- C8: payload assembly downloads exactly the first `min(N, 25)` sample
indices of the clip-number-ordered sample list (so at most 25, in clip
order), skips failed downloads without aborting, proceeds to createVoice
as soon as one sample survives, and with zero survivors fails with the
no-valid-samples message before any createVoice call. -/
theorem c8_sample_assembly (pid : String) (p : Project) (samples : List Sample) (env : Env)
    (hp : p.id = pid) (hs : samples ≠ []) :
    (runGeneration (some pid) (some p) samples env).sampleFetches
      = List.range (min samples.length 25) ∧
    min samples.length 25 ≤ 25 ∧
    (samples.Pairwise (fun a b => a.clip_number ≤ b.clip_number) →
      ((samples.take 25).map (fun x => x.clip_number)).Pairwise (· ≤ ·)) ∧
    ((List.range (min samples.length 25)).countP (fun i => env.sampleOk i) = 0 →
      (runGeneration (some pid) (some p) samples env).response
          = Except.error (noValidSamplesMsg, 500) ∧
      ProviderCall.createVoice ∉ (runGeneration (some pid) (some p) samples env).calls) ∧
    ((List.range (min samples.length 25)).countP (fun i => env.sampleOk i) ≠ 0 →
      ProviderCall.createVoice ∈ (runGeneration (some pid) (some p) samples env).calls) := by
  rw [runGeneration_valid pid p samples env hp hs]
  refine ⟨?_, Nat.min_le_right _ _, ?_, ?_, ?_⟩
  · simp only [afterSamplesLoaded]
    by_cases hcnt : ((List.range (min samples.length 25)).countP (fun i => env.sampleOk i) = 0)
    · rw [if_pos hcnt]
      exact failResult_fetches _ _ _ _ _ _
    · rw [if_neg hcnt]
      cases hres : (retryWithBackoff env.createVoiceAttempts 3 2000).1 with
      | error e => exact failResult_fetches _ _ _ _ _ _
      | ok ov =>
        cases ov with
        | none => exact failResult_fetches _ _ _ _ _ _
        | some vid => exact afterVoiceCreated_fetches _ _ _ _ _ _
  · intro hsort
    exact List.pairwise_map.mpr (List.Pairwise.sublist (List.take_sublist _ _) hsort)
  · intro hcnt
    simp only [afterSamplesLoaded]
    rw [if_pos hcnt]
    constructor
    · rw [failResult_response]
      have h500 : determineStatusCode noValidSamplesMsg = 500 := by decide
      rw [h500]
    · intro hmem
      rcases mem_failResult_calls _ _ _ _ _ _ hmem with h2 | ⟨vid2, h2⟩
      · simp at h2
      · simp at h2
  · intro hcnt
    have hone : 1 ≤ (retryWithBackoff env.createVoiceAttempts 3 2000).2.1 :=
      (retryWithBackoff_spec env.createVoiceAttempts 3 2000 (by omega)).1.1
    have hrep : ProviderCall.createVoice ∈
        List.replicate (retryWithBackoff env.createVoiceAttempts 3 2000).2.1
          ProviderCall.createVoice := by
      rw [List.mem_replicate]
      exact ⟨by omega, rfl⟩
    simp only [afterSamplesLoaded]
    rw [if_neg hcnt]
    cases hres : (retryWithBackoff env.createVoiceAttempts 3 2000).1 with
    | error e => exact failResult_calls_mono _ _ _ _ _ _ hrep
    | ok ov =>
      cases ov with
      | none => exact failResult_calls_mono _ _ _ _ _ _ hrep
      | some vid => exact afterVoiceCreated_calls_mono _ _ _ _ _ _ _ hrep

/-- C8 witness: the single-sample list under the all-success environment. -/
theorem c8_sample_assembly_witness :
    (runGeneration (some "p1") (some demoProject) oneSample allOkEnv).sampleFetches
      = List.range (min oneSample.length 25) ∧
    min oneSample.length 25 ≤ 25 ∧
    (oneSample.Pairwise (fun a b => a.clip_number ≤ b.clip_number) →
      ((oneSample.take 25).map (fun x => x.clip_number)).Pairwise (· ≤ ·)) ∧
    ((List.range (min oneSample.length 25)).countP (fun i => allOkEnv.sampleOk i) = 0 →
      (runGeneration (some "p1") (some demoProject) oneSample allOkEnv).response
          = Except.error (noValidSamplesMsg, 500) ∧
      ProviderCall.createVoice ∉
        (runGeneration (some "p1") (some demoProject) oneSample allOkEnv).calls) ∧
    ((List.range (min oneSample.length 25)).countP (fun i => allOkEnv.sampleOk i) ≠ 0 →
      ProviderCall.createVoice ∈
        (runGeneration (some "p1") (some demoProject) oneSample allOkEnv).calls) :=
  c8_sample_assembly "p1" demoProject oneSample allOkEnv rfl (by decide)

/-- C2: when `last_generation_at` is set and less than five minutes in
the past, the (spec-modelled) rate-limited run fails with RateLimited
(status 429, reporting the remaining seconds), performs zero provider
calls and zero sample downloads, and leaves the project row unchanged. -/
theorem c2_rate_limit_second_call (now : Nat) (pid : String) (p : Project)
    (samples : List Sample) (env : Env) (t : Nat)
    (hp : p.id = pid) (hlast : p.last_generation_at = some t)
    (hlt : now - t < fiveMinutesMs) :
    (runGenerationRL now (some pid) (some p) samples env).response
      = Except.error (rateLimitedMsg ((fiveMinutesMs - (now - t)) / 1000), 429) ∧
    (runGenerationRL now (some pid) (some p) samples env).calls = [] ∧
    (runGenerationRL now (some pid) (some p) samples env).project = some p ∧
    (runGenerationRL now (some pid) (some p) samples env).sampleFetches = [] := by
  subst hp
  have hrl : rateLimitRemainingSecs now p.last_generation_at
      = some ((fiveMinutesMs - (now - t)) / 1000) := by
    rw [hlast]
    unfold rateLimitRemainingSecs
    dsimp only
    rw [if_pos hlt]
  unfold runGenerationRL
  dsimp only
  rw [if_pos (beq_self_eq_true p.id), hrl]
  exact ⟨rfl, rfl, rfl, rfl⟩

/-- C2 witness: a call at time 1000 against a project stamped at 900
(100 ms ago). -/
theorem c2_rate_limit_second_call_witness :
    (runGenerationRL 1000 (some "p2") (some cooldownProject) oneSample allOkEnv).response
      = Except.error (rateLimitedMsg ((fiveMinutesMs - (1000 - 900)) / 1000), 429) ∧
    (runGenerationRL 1000 (some "p2") (some cooldownProject) oneSample allOkEnv).calls = [] ∧
    (runGenerationRL 1000 (some "p2") (some cooldownProject) oneSample allOkEnv).project
      = some cooldownProject ∧
    (runGenerationRL 1000 (some "p2") (some cooldownProject) oneSample allOkEnv).sampleFetches = [] :=
  c2_rate_limit_second_call 1000 "p2" cooldownProject oneSample allOkEnv 900 rfl rfl (by decide)
